import Mathlib

/-!
Shallow embedding of src/src/stm32/stm32h7_spi.c (the STM32H7 SPI driver of
the klipper firmware) and proofs about its specification claims.

Machine integers are modelled as Nat; every quantity that appears here stays
well below 2^32, so no wraparound occurs in the source expressions that are
embedded (this is noted at each definition where it matters).
-/

namespace Stm32h7Spi

/-- Identifier of an SPI peripheral instance (the SPI1..SPI6 base pointers of
the C code, abstracted to an enumeration since only identity is used). -/
inductive SPIDev
  | spi1
  | spi2
  | spi3
  | spi4
  | spi5
  | spi6
deriving DecidableEq, Repr

/-- Embedding of the GPIO(bank, num) pin-encoding macro of the stm32 port:
GPIO('B', 14) = ('B' - 'A') * 16 + 14. -/
def GPIOpin (bank : Char) (num : Nat) : Nat :=
  (bank.toNat - 'A'.toNat) * 16 + num

/-- Embedding of GPIO_FUNCTION(fn): only the alternate-function number is
relevant to the claims, so the macro is modelled as the identity on it. -/
def GPIO_FUNCTION (fn : Nat) : Nat := fn

/-- Embedding of `struct spi_info` (stm32h7_spi.c lines 16-19). -/
structure SpiInfo where
  spi : SPIDev
  miso_pin : Nat
  mosi_pin : Nat
  sck_pin : Nat
  function : Nat
deriving DecidableEq, Repr

/-- Preprocessor build variant: which of the conditional-compilation symbols
used by stm32h7_spi.c are defined for the current build. -/
structure BuildConfig where
  machSTM32F1 : Bool  -- CONFIG_MACH_STM32F1
  hasSPI3 : Bool      -- SPI3 defined
  hasSPI4 : Bool      -- SPI4 defined
  hasGPIOI : Bool     -- GPIOI defined
  hasSPI5 : Bool      -- SPI5 defined
  hasSPI6 : Bool      -- SPI6 defined
deriving DecidableEq, Repr

/-- Embedding of the `static const struct spi_info spi_bus[]` table
(stm32h7_spi.c lines 62-83), including its preprocessor conditionals.
Note the SPI2/PI2/PI3/PI1 row (line 76 of the source) is NOT guarded by
`#ifdef GPIOI` in the source, although its DECL_ENUMERATION is. -/
def spi_bus (bc : BuildConfig) : List SpiInfo :=
  [ ⟨.spi2, GPIOpin 'B' 14, GPIOpin 'B' 15, GPIOpin 'B' 13, GPIO_FUNCTION 5⟩,
    ⟨.spi1, GPIOpin 'A' 6, GPIOpin 'A' 7, GPIOpin 'A' 5, GPIO_FUNCTION 5⟩,
    ⟨.spi1, GPIOpin 'B' 4, GPIOpin 'B' 5, GPIOpin 'B' 3, GPIO_FUNCTION 5⟩ ]
  ++ (if !bc.machSTM32F1 then
    [ ⟨.spi2, GPIOpin 'C' 2, GPIOpin 'C' 3, GPIOpin 'B' 10, GPIO_FUNCTION 5⟩ ] else [])
  ++ (if bc.hasSPI3 then
    [ ⟨.spi3, GPIOpin 'C' 11, GPIOpin 'C' 12, GPIOpin 'C' 10, GPIO_FUNCTION 6⟩ ] else [])
  ++ (if bc.hasSPI4 then
    [ ⟨.spi4, GPIOpin 'E' 13, GPIOpin 'E' 14, GPIOpin 'E' 12, GPIO_FUNCTION 5⟩ ] else [])
  ++ [ ⟨.spi2, GPIOpin 'I' 2, GPIOpin 'I' 3, GPIOpin 'I' 1, GPIO_FUNCTION 5⟩ ]
  ++ (if bc.hasSPI5 then
    [ ⟨.spi5, GPIOpin 'F' 8, GPIOpin 'F' 9, GPIOpin 'F' 7, GPIO_FUNCTION 5⟩,
      ⟨.spi5, GPIOpin 'H' 7, GPIOpin 'F' 11, GPIOpin 'H' 6, GPIO_FUNCTION 5⟩ ] else [])
  ++ (if bc.hasSPI6 then
    [ ⟨.spi6, GPIOpin 'G' 12, GPIOpin 'G' 14, GPIOpin 'G' 13, GPIO_FUNCTION 5⟩ ] else [])

/-- One DECL_ENUMERATION("spi_bus", name, ...) entry together with its
DECL_CONSTANT_STR("BUS_PINS_" name, str) pin-triplet string.  The `pins`
field lists the pin codes of the string in the literal order of the string
(e.g. "PB14,PB15,PB13" becomes [GPIO B 14, GPIO B 15, GPIO B 13]); `dev` is
the peripheral instance that the bus name designates (spi1 names SPI1, the
a/b suffixes are alternate pin routings of the same instance). -/
structure EnumDecl where
  name : String
  dev : SPIDev
  pins : List Nat
deriving DecidableEq, Repr

/-- Embedding of the DECL_ENUMERATION / DECL_CONSTANT_STR block
(stm32h7_spi.c lines 21-59), including its preprocessor conditionals; the
spi2b declaration IS guarded by `#ifdef GPIOI` in the source. -/
def spi_bus_enums (bc : BuildConfig) : List EnumDecl :=
  [ ⟨"spi2", .spi2, [GPIOpin 'B' 14, GPIOpin 'B' 15, GPIOpin 'B' 13]⟩,
    ⟨"spi1", .spi1, [GPIOpin 'A' 6, GPIOpin 'A' 7, GPIOpin 'A' 5]⟩,
    ⟨"spi1a", .spi1, [GPIOpin 'B' 4, GPIOpin 'B' 5, GPIOpin 'B' 3]⟩ ]
  ++ (if !bc.machSTM32F1 then
    [ ⟨"spi2a", .spi2, [GPIOpin 'C' 2, GPIOpin 'C' 3, GPIOpin 'B' 10]⟩ ] else [])
  ++ (if bc.hasSPI3 then
    [ ⟨"spi3a", .spi3, [GPIOpin 'C' 11, GPIOpin 'C' 12, GPIOpin 'C' 10]⟩ ] else [])
  ++ (if bc.hasSPI4 then
    [ ⟨"spi4", .spi4, [GPIOpin 'E' 13, GPIOpin 'E' 14, GPIOpin 'E' 12]⟩ ] else [])
  ++ (if bc.hasGPIOI then
    [ ⟨"spi2b", .spi2, [GPIOpin 'I' 2, GPIOpin 'I' 3, GPIOpin 'I' 1]⟩ ] else [])
  ++ (if bc.hasSPI5 then
    [ ⟨"spi5", .spi5, [GPIOpin 'F' 8, GPIOpin 'F' 9, GPIOpin 'F' 7]⟩,
      ⟨"spi5a", .spi5, [GPIOpin 'H' 7, GPIOpin 'F' 11, GPIOpin 'H' 6]⟩ ] else [])
  ++ (if bc.hasSPI6 then
    [ ⟨"spi6", .spi6, [GPIOpin 'G' 12, GPIOpin 'G' 14, GPIOpin 'G' 13]⟩ ] else [])

/-- Embedding of the divisor search loop of spi_setup (lines 102-105):
`uint32_t div = 0; while ((pclk >> (div + 1)) > rate && div < 7) div++;`.
The `div < 7` guard bounds the loop at 7 iterations, so running the
recursion on 8 units of fuel computes exactly the value the C loop does. -/
def spiDivLoop (pclk rate : Nat) : Nat → Nat → Nat
  | d, 0 => d
  | d, fuel + 1 =>
    if rate < pclk >>> (d + 1) ∧ d < 7 then spiDivLoop pclk rate (d + 1) fuel
    else d

/-- Divisor computed by spi_setup for a given peripheral clock and rate. -/
def spiDiv (pclk rate : Nat) : Nat := spiDivLoop pclk rate 0 8

/-- Embedding of `struct spi_config` as constructed by spi_setup
(line 107): the peripheral, the divisor and the (unmasked) mode. -/
structure spi_config where
  spi : SPIDev
  div : Nat
  mode : Nat
deriving DecidableEq, Repr

/-- Observable side effect performed by spi_setup: an enable_pclock call or
a gpio_peripheral(pin, function, pull_up) call. -/
inductive SetupEffect
  | enable_pclock (dev : SPIDev)
  | gpio_peripheral (pin fn pullup : Nat)
deriving DecidableEq, Repr

/-- Result of a successful spi_setup call: the returned configuration, the
updated peripheral-clock activation state, and the trace of side effects
performed, in program order. -/
structure SetupResult where
  config : spi_config
  pclock_enabled : SPIDev → Bool
  effects : List SetupEffect

/-- Placeholder descriptor used as the (never reached) list-access default
once the bounds check has passed. -/
def noInfo : SpiInfo := ⟨.spi1, 0, 0, 0, 0⟩

/-- Activation state after enable_pclock marks a peripheral as enabled. -/
def activationUpdate (enabled : SPIDev → Bool) (dev : SPIDev) :
    SPIDev → Bool :=
  fun p => if p = dev then true else enabled p

/-- Side effects of the first-activation branch of spi_setup (lines 94-97):
enable_pclock, then gpio_peripheral on the miso pin with pull-up 1, the
mosi pin with 0 and the sck pin with 0, in program order. -/
def activationEffects (info : SpiInfo) : List SetupEffect :=
  [ .enable_pclock info.spi,
    .gpio_peripheral info.miso_pin info.function 1,
    .gpio_peripheral info.mosi_pin info.function 0,
    .gpio_peripheral info.sck_pin info.function 0 ]

/-- Modelled from the spec: the clock-domain capability
(is_enabled_pclock / enable_pclock / get_pclock_frequency) lives outside
src/ and is described in the spec as `is_active(peripheral_id) -> bool`,
`activate(peripheral_id)` and `clock_frequency(peripheral_id) -> u32`, with
one activation bit per peripheral instance.  The activation state is
therefore modelled as a function `SPIDev → Bool`, activation as setting that
bit, and the clock frequency as an arbitrary function parameter.  This
definition embeds spi_setup (stm32h7_spi.c lines 85-108): bounds check with
fatal shutdown, lazy one-time clock/pin activation (enable_pclock, then
gpio_peripheral on miso with pull-up 1, mosi with 0, sck with 0), divisor
search, and the returned configuration.  shutdown never returns; it is
modelled as Except.error carrying the diagnostic string, with no effects
recorded. -/
def spi_setup (bc : BuildConfig) (pclkFreq : SPIDev → Nat)
    (enabled : SPIDev → Bool) (bus mode rate : Nat) :
    Except String SetupResult :=
  if bus < (spi_bus bc).length then
    let info := (spi_bus bc).getD bus noInfo
    let enabled2 :=
      if enabled info.spi then enabled else activationUpdate enabled info.spi
    let effs :=
      if enabled info.spi then [] else activationEffects info
    let pclk := pclkFreq info.spi
    .ok ⟨⟨info.spi, spiDiv pclk rate, mode⟩, enabled2, effs⟩
  else
    .error "Invalid spi bus"

/-- Modelled from the spec: the SPI register field constants come from the
STM32H7 device header, which is part of the firmware tree but outside src/.
The spec (section 4.3) fixes the layout the driver relies on: the clock
phase bit is taken from the mode's low bit and the clock polarity from the
mode's high bit (so CPOL sits one position above CPHA), with master mode,
software slave management, alternate-function control and slave-select
output as the always-set control bits.  The numeric positions are those of
the STM32H7 SPI CFG2 register: CPHA bit 24, CPOL bit 25, SSM bit 26, SSOE
bit 29, AFCNTR bit 31, MASTER bit 22; CFG1 has DSIZE at bit 0 and MBR at
bit 28. -/
def SPI_CFG2_CPHA_Pos : Nat := 24

/-- Bit position of the clock-polarity bit in CFG2 (one above CPHA). -/
def SPI_CFG2_CPOL_Pos : Nat := 25

/-- Mask of the clock-polarity bit. -/
def SPI_CFG2_CPOL_Msk : Nat := 1 <<< SPI_CFG2_CPOL_Pos

/-- Master-mode bit of CFG2. -/
def SPI_CFG2_MASTER : Nat := 1 <<< 22

/-- Software slave-management bit of CFG2 (bit 26, directly above CPOL). -/
def SPI_CFG2_SSM : Nat := 1 <<< 26

/-- Slave-select output enable bit of CFG2. -/
def SPI_CFG2_SSOE : Nat := 1 <<< 29

/-- Alternate-function control bit of CFG2. -/
def SPI_CFG2_AFCNTR : Nat := 1 <<< 31

/-- Baud-rate divisor field position in CFG1. -/
def SPI_CFG1_MBR_Pos : Nat := 28

/-- Frame-size field position in CFG1. -/
def SPI_CFG1_DSIZE_Pos : Nat := 0

/-- Value computed for the CFG2 mode/control register by spi_prepare
(lines 121-122): `(mode << SPI_CFG2_CPHA_Pos) | SPI_CFG2_MASTER |
SPI_CFG2_SSM | SPI_CFG2_AFCNTR | SPI_CFG2_SSOE`.  The mode is shifted in
unmasked, exactly as in the source; mode is a uint8_t, so mode <<< 24 fits
in 32 bits and Nat introduces no divergence from the C value. -/
def spiCfg2 (mode : Nat) : Nat :=
  (mode <<< SPI_CFG2_CPHA_Pos) ||| SPI_CFG2_MASTER ||| SPI_CFG2_SSM
    ||| SPI_CFG2_AFCNTR ||| SPI_CFG2_SSOE

/-- Result of spi_prepare: the values written to CFG1 and CFG2, and whether
the ~1 microsecond settle busy-wait was executed (the source busy-waits on
the monotonic timer until `timer_read_time() + timer_from_us(1)`; the
duration is fixed, so the wait is modelled as a Bool). -/
structure PrepareResult where
  cfg1 : Nat
  cfg2 : Nat
  waited : Bool
deriving DecidableEq, Repr

/-- Embedding of spi_prepare (stm32h7_spi.c lines 111-127).  The only
pre-existing hardware state it reads is the CFG2 register, passed in as
`oldCFG2`: the source computes `diff = spi->CFG2 ^ cfg2` before
overwriting CFG2, and busy-waits for 1us exactly when
`diff & SPI_CFG2_CPOL_Msk` is nonzero. -/
def spi_prepare (config : spi_config) (oldCFG2 : Nat) : PrepareResult :=
  let cfg1 := (config.div <<< SPI_CFG1_MBR_Pos) ||| (7 <<< SPI_CFG1_DSIZE_Pos)
  let cfg2 := spiCfg2 config.mode
  let diff := oldCFG2 ^^^ cfg2
  ⟨cfg1, cfg2, diff &&& SPI_CFG2_CPOL_Msk != 0⟩

/-- The FIFO-depth bound of the transfer loop (stm32h7_spi.c line 14). -/
def MAX_FIFO : Nat := 8

/-- State of the spi_transfer polling loop (lines 136, 141-151).  The C
code walks one buffer with two pointers: `data` (the receive cursor, also
the loop-termination cursor) and `wptr` (the send cursor); both are kept
here as offsets from the buffer origin.  The buffer is the byte memory the
pointers walk, modelled as a function from offset to byte; `txdrWrites` is
the trace of bytes written to the TXDR transmit data register, in order. -/
structure XferState where
  data : Nat
  wptr : Nat
  buf : Nat → Nat
  txdrWrites : List Nat

/-- Initial loop state: both cursors at the buffer origin, nothing sent. -/
def xferInit (buf : Nat → Nat) : XferState :=
  ⟨0, 0, buf, []⟩

/-- One iteration of the spi_transfer polling loop (lines 141-151) driven
by one reading of the status register.  `txp` and `rxp` are the TXP and
RXP bits of `sr = spi->SR & (SPI_SR_TXP | SPI_SR_RXP)`, and `rxdr` is the
byte the RXDR register would deliver if read this iteration.  The source:
`if (sr == SPI_SR_TXP && wptr < end && wptr < data + MAX_FIFO)` — note
`sr == SPI_SR_TXP` holds exactly when TXP is set AND RXP is clear — sends
`*wptr++`; then `if (!(sr & RXP)) continue;` else the received byte is
stored at `*data` when receive_data is set, and `data++`.  Iterations only
happen while `data < end`, which the outer guard reproduces. -/
def spi_transfer_step (receive_data : Bool) (len : Nat) (s : XferState)
    (txp rxp : Bool) (rxdr : Nat) : XferState :=
  if s.data < len then
    let s1 :=
      if txp = true ∧ rxp = false ∧ s.wptr < len ∧ s.wptr < s.data + MAX_FIFO
      then { s with wptr := s.wptr + 1,
                    txdrWrites := s.txdrWrites ++ [s.buf s.wptr] }
      else s
    if rxp then
      { s1 with data := s1.data + 1,
                buf := if receive_data
                       then fun k => if k = s1.data then rxdr else s1.buf k
                       else s1.buf }
    else s1
  else s

/-- The spi_transfer polling loop run over a finite sequence of status
readings, each paired with the byte RXDR would deliver at that reading.
The C loop is unbounded (it polls until `data == end`); every reachable
loop state is the result of running some finite reading sequence, so
quantifying over `inputs` quantifies over all iterations. -/
def spi_transfer_run (receive_data : Bool) (len : Nat) (s : XferState) :
    List (Bool × Bool × Nat) → XferState
  | [] => s
  | (txp, rxp, r) :: rest =>
    spi_transfer_run receive_data len
      (spi_transfer_step receive_data len s txp rxp r) rest

/-- FIFO-consistency of a status-reading sequence: the hardware reports a
received byte (RXP) only when some transmitted byte is still in flight,
i.e. when the receive cursor is strictly behind the send cursor (checked
only while the loop is still running).  Real SPI hardware can only echo
bytes that were actually transmitted, so its flag sequences satisfy this. -/
def rxFlagsOk (receive_data : Bool) (len : Nat) (s : XferState) :
    List (Bool × Bool × Nat) → Bool
  | [] => true
  | (txp, rxp, r) :: rest =>
    ((!rxp) || (!decide (s.data < len)) || decide (s.data < s.wptr)) &&
      rxFlagsOk receive_data len
        (spi_transfer_step receive_data len s txp rxp r) rest

/-- The spi_transfer loop against an echo peripheral: the byte RXDR
delivers for receive index `data` is the byte that was written to TXDR as
the data-th transmit (looked up in the transmit trace). -/
def spi_transfer_echo (len : Nat) (s : XferState) :
    List (Bool × Bool) → XferState
  | [] => s
  | (txp, rxp) :: rest =>
    spi_transfer_echo len
      (spi_transfer_step true len s txp rxp (s.txdrWrites.getD s.data 0)) rest

/-- FIFO-consistency of the status readings of an echo run (as rxFlagsOk,
for flag sequences without explicit RXDR values). -/
def echoFlagsOk (len : Nat) (s : XferState) : List (Bool × Bool) → Bool
  | [] => true
  | (txp, rxp) :: rest =>
    ((!rxp) || (!decide (s.data < len)) || decide (s.data < s.wptr)) &&
      echoFlagsOk len
        (spi_transfer_step true len s txp rxp (s.txdrWrites.getD s.data 0)) rest

/-- Build variant with every conditional peripheral present (a full
STM32H7 build: GPIOI and SPI3..SPI6 all defined, not an STM32F1). -/
def bcAll : BuildConfig := ⟨false, true, true, true, true, true⟩

/-- Minimal build variant: STM32F1, no SPI3..SPI6, no GPIOI. -/
def bcSmall : BuildConfig := ⟨true, false, false, false, false, false⟩

/-- Build variant with SPI5/SPI6 present but GPIOI absent. -/
def bcNoGPIOI : BuildConfig := ⟨false, true, true, false, true, true⟩

/-! Properties of the divisor search loop. -/

theorem spiDivLoop_le_seven (pclk rate : Nat) :
    ∀ fuel d, d ≤ 7 → spiDivLoop pclk rate d fuel ≤ 7 := by
  intro fuel
  induction fuel with
  | zero => intro d hd; exact hd
  | succ n ih =>
    intro d hd
    rw [spiDivLoop]
    split
    · next h => exact ih (d + 1) h.2
    · exact hd

theorem spiDivLoop_ge (pclk rate : Nat) :
    ∀ fuel d, d ≤ spiDivLoop pclk rate d fuel := by
  intro fuel
  induction fuel with
  | zero => intro d; exact Nat.le_refl d
  | succ n ih =>
    intro d
    rw [spiDivLoop]
    split
    · exact Nat.le_trans (Nat.le_succ d) (ih (d + 1))
    · exact Nat.le_refl d

theorem spiDivLoop_stops_at_seven (pclk rate : Nat) :
    ∀ fuel d, 7 ≤ d + fuel → d ≤ 7 →
      rate < pclk >>> (spiDivLoop pclk rate d fuel + 1) →
      spiDivLoop pclk rate d fuel = 7 := by
  intro fuel
  induction fuel with
  | zero =>
    intro d hfuel hd _
    have hz : spiDivLoop pclk rate d 0 = d := rfl
    omega
  | succ n ih =>
    intro d hfuel hd hrate
    rw [spiDivLoop] at hrate ⊢
    split at hrate
    · next h =>
      rw [if_pos h]
      exact ih (d + 1) (by omega) h.2 hrate
    · next h =>
      rw [if_neg h]
      have hnot : ¬ d < 7 := fun hlt => h ⟨hrate, hlt⟩
      omega

theorem spiDivLoop_skipped (pclk rate : Nat) :
    ∀ fuel d e, d ≤ e → e < spiDivLoop pclk rate d fuel →
      rate < pclk >>> (e + 1) := by
  intro fuel
  induction fuel with
  | zero =>
    intro d e hde hlt
    rw [spiDivLoop] at hlt
    omega
  | succ n ih =>
    intro d e hde hlt
    rw [spiDivLoop] at hlt
    split at hlt
    · next h =>
      rcases Nat.eq_or_lt_of_le hde with heq | hgt
      · exact heq ▸ h.1
      · exact ih (d + 1) e hgt hlt
    · omega

/-- Equation lemma for spi_setup on a valid bus index. -/
theorem spi_setup_eq_ok (bc : BuildConfig) (pclkFreq : SPIDev → Nat)
    (enabled : SPIDev → Bool) (bus mode rate : Nat)
    (hbus : bus < (spi_bus bc).length) :
    spi_setup bc pclkFreq enabled bus mode rate =
      .ok ⟨⟨((spi_bus bc).getD bus noInfo).spi,
            spiDiv (pclkFreq ((spi_bus bc).getD bus noInfo).spi) rate, mode⟩,
           if enabled ((spi_bus bc).getD bus noInfo).spi then enabled
             else activationUpdate enabled ((spi_bus bc).getD bus noInfo).spi,
           if enabled ((spi_bus bc).getD bus noInfo).spi then []
             else activationEffects ((spi_bus bc).getD bus noInfo)⟩ := by
  simp [spi_setup, hbus]

/-- C1: for every valid bus index, every mode and every requested rate > 0,
spi_setup returns a Configuration whose divisor d is at most 7, satisfies
pclk >>> (d+1) <= rate unless d = 7, and is the smallest value in [0,7]
satisfying that inequality when one exists (so d = 7 exactly when no
smaller divisor suffices); in particular pclk = 100000000 and
rate = 1000000 give d = 6. -/
theorem spi_setup_div_least (bc : BuildConfig) (pclkFreq : SPIDev → Nat)
    (enabled : SPIDev → Bool) (bus mode rate : Nat)
    (hbus : bus < (spi_bus bc).length) (_hrate : 0 < rate) :
    ∃ res, spi_setup bc pclkFreq enabled bus mode rate = .ok res ∧
      res.config.div ≤ 7 ∧
      (pclkFreq ((spi_bus bc).getD bus noInfo).spi >>> (res.config.div + 1)
          ≤ rate ∨ res.config.div = 7) ∧
      (∀ d, d ≤ 7 →
        pclkFreq ((spi_bus bc).getD bus noInfo).spi >>> (d + 1) ≤ rate →
        res.config.div ≤ d) ∧
      (pclkFreq ((spi_bus bc).getD bus noInfo).spi = 100000000 →
        rate = 1000000 → res.config.div = 6) := by
  rw [spi_setup_eq_ok bc pclkFreq enabled bus mode rate hbus]
  refine ⟨_, rfl, ?_, ?_, ?_, ?_⟩
  · exact spiDivLoop_le_seven _ _ 8 0 (by omega)
  · by_cases h :
      pclkFreq ((spi_bus bc).getD bus noInfo).spi >>> (spiDiv
        (pclkFreq ((spi_bus bc).getD bus noInfo).spi) rate + 1) ≤ rate
    · exact Or.inl h
    · exact Or.inr (spiDivLoop_stops_at_seven _ _ 8 0 (by omega) (by omega)
        (Nat.lt_of_not_le h))
  · intro d hd7 hsat
    by_contra hlt
    exact absurd hsat (Nat.not_le_of_lt
      (spiDivLoop_skipped _ _ 8 0 d (Nat.zero_le d) (Nat.lt_of_not_le hlt)))
  · intro h1 h2
    show spiDiv _ rate = 6
    rw [h1, h2]
    decide

/-- Witness for spi_setup_div_least: a full build, bus 0, mode 0,
pclk 100 MHz, requested rate 1 MHz. -/
theorem spi_setup_div_least_inst :
    ∃ res, spi_setup bcAll (fun _ => 100000000) (fun _ => false)
        0 0 1000000 = .ok res ∧
      res.config.div ≤ 7 ∧
      ((fun (_ : SPIDev) => 100000000) ((spi_bus bcAll).getD 0 noInfo).spi
          >>> (res.config.div + 1) ≤ 1000000 ∨ res.config.div = 7) ∧
      (∀ d, d ≤ 7 →
        (fun (_ : SPIDev) => 100000000) ((spi_bus bcAll).getD 0 noInfo).spi
          >>> (d + 1) ≤ 1000000 → res.config.div ≤ d) ∧
      ((fun (_ : SPIDev) => 100000000) ((spi_bus bcAll).getD 0 noInfo).spi
          = 100000000 → 1000000 = 1000000 → res.config.div = 6) :=
  spi_setup_div_least bcAll (fun _ => 100000000) (fun _ => false) 0 0 1000000
    (by decide) (by decide)

/-- C4: for every bus index at or beyond the table size, spi_setup aborts
via shutdown with the diagnostic "Invalid spi bus" and performs no
register, pin or clock side effects (the error result carries no effect
trace and no state change). -/
theorem spi_setup_invalid_bus (bc : BuildConfig) (pclkFreq : SPIDev → Nat)
    (enabled : SPIDev → Bool) (bus mode rate : Nat)
    (hbus : (spi_bus bc).length ≤ bus) :
    spi_setup bc pclkFreq enabled bus mode rate = .error "Invalid spi bus" := by
  simp [spi_setup, Nat.not_lt.mpr hbus]

/-- Witness for spi_setup_invalid_bus: the minimal build has a 4-entry
table, so bus index 100 aborts. -/
theorem spi_setup_invalid_bus_inst :
    spi_setup bcSmall (fun _ => 100000000) (fun _ => false) 100 0 1000000 =
      .error "Invalid spi bus" :=
  spi_setup_invalid_bus bcSmall (fun _ => 100000000) (fun _ => false)
    100 0 1000000 (by decide)

/-- C5: for every pair of spi_setup calls whose bus indices resolve to the
same peripheral instance, the clock-enable and pin-routing side effects
happen exactly once, on the first call (when the peripheral was not yet
activated); the second call performs no pin or clock side effects, and a
first call against an already-activated peripheral also performs none. -/
theorem spi_setup_activation_once (bc : BuildConfig) (pclkFreq : SPIDev → Nat)
    (enabled : SPIDev → Bool) (bus1 bus2 m1 r1 m2 r2 : Nat)
    (h1 : bus1 < (spi_bus bc).length) (h2 : bus2 < (spi_bus bc).length)
    (hsame : ((spi_bus bc).getD bus1 noInfo).spi
      = ((spi_bus bc).getD bus2 noInfo).spi) :
    ∃ res1 res2,
      spi_setup bc pclkFreq enabled bus1 m1 r1 = .ok res1 ∧
      spi_setup bc pclkFreq res1.pclock_enabled bus2 m2 r2 = .ok res2 ∧
      res2.effects = [] ∧
      (enabled ((spi_bus bc).getD bus1 noInfo).spi = false →
        res1.effects = activationEffects ((spi_bus bc).getD bus1 noInfo)) ∧
      (enabled ((spi_bus bc).getD bus1 noInfo).spi = true →
        res1.effects = []) := by
  by_cases he : enabled ((spi_bus bc).getD bus1 noInfo).spi
  · have E1 := spi_setup_eq_ok bc pclkFreq enabled bus1 m1 r1 h1
    rw [if_pos he, if_pos he] at E1
    have he2 : enabled ((spi_bus bc).getD bus2 noInfo).spi = true := by
      rw [← hsame]; exact he
    have E2 := spi_setup_eq_ok bc pclkFreq enabled bus2 m2 r2 h2
    rw [if_pos he2, if_pos he2] at E2
    exact ⟨_, _, E1, E2, rfl,
      fun hf => by rw [hf] at he; exact Bool.noConfusion he, fun _ => rfl⟩
  · have E1 := spi_setup_eq_ok bc pclkFreq enabled bus1 m1 r1 h1
    rw [if_neg he, if_neg he] at E1
    have he2 : activationUpdate enabled ((spi_bus bc).getD bus1 noInfo).spi
        ((spi_bus bc).getD bus2 noInfo).spi = true := by
      rw [← hsame]
      simp [activationUpdate]
    have E2 := spi_setup_eq_ok bc pclkFreq
      (activationUpdate enabled ((spi_bus bc).getD bus1 noInfo).spi)
      bus2 m2 r2 h2
    rw [if_pos he2, if_pos he2] at E2
    exact ⟨_, _, E1, E2, rfl, fun _ => rfl, fun ht => absurd ht he⟩

/-- Witness for spi_setup_activation_once: a full build, bus 0 (spi2 on
PB pins) and bus 3 (spi2a on PC pins) share the SPI2 instance, starting
from a state where nothing is activated. -/
theorem spi_setup_activation_once_inst :
    ∃ res1 res2,
      spi_setup bcAll (fun _ => 100000000) (fun _ => false) 0 0 1000000
        = .ok res1 ∧
      spi_setup bcAll (fun _ => 100000000) res1.pclock_enabled 3 0 1000000
        = .ok res2 ∧
      res2.effects = [] ∧
      ((fun (_ : SPIDev) => false) ((spi_bus bcAll).getD 0 noInfo).spi = false →
        res1.effects = activationEffects ((spi_bus bcAll).getD 0 noInfo)) ∧
      ((fun (_ : SPIDev) => false) ((spi_bus bcAll).getD 0 noInfo).spi = true →
        res1.effects = []) :=
  spi_setup_activation_once bcAll (fun _ => 100000000) (fun _ => false)
    0 3 0 1000000 0 1000000 (by decide) (by decide) (by decide)

/-- The settle-wait test of spi_prepare fires exactly when the
clock-polarity bit differs between the old and the new CFG2 value. -/
theorem cpolDiffIff (a b : Nat) :
    (((a ^^^ b) &&& SPI_CFG2_CPOL_Msk) != 0) = true ↔
      a.testBit SPI_CFG2_CPOL_Pos ≠ b.testBit SPI_CFG2_CPOL_Pos := by
  have hmsk : SPI_CFG2_CPOL_Msk = 2 ^ SPI_CFG2_CPOL_Pos := by
    rw [SPI_CFG2_CPOL_Msk, Nat.shiftLeft_eq, one_mul]
  rw [hmsk, Nat.and_two_pow, bne_iff_ne]
  rcases ha : a.testBit SPI_CFG2_CPOL_Pos <;>
    rcases hb : b.testBit SPI_CFG2_CPOL_Pos <;>
      simp [Nat.testBit_xor, ha, hb]

/-- Polarity bits of the CFG2 values of two valid modes differ exactly
when the modes' high bits differ. -/
theorem spiCfg2_cpol_ne : ∀ m, m < 4 → ∀ m2, m2 < 4 → m / 2 ≠ m2 / 2 →
    (spiCfg2 m).testBit SPI_CFG2_CPOL_Pos
      ≠ (spiCfg2 m2).testBit SPI_CFG2_CPOL_Pos := by
  decide

/-- C6: spi_prepare busy-waits (approximately 1 microsecond, the source
waits until timer_read_time() + timer_from_us(1)) after the CFG2 write if
and only if the clock-polarity bit differs between the register's previous
contents and the newly computed value; hence a second prepare with an
unchanged mode never waits, and a prepare whose mode flips the polarity
bit always waits. -/
theorem spi_prepare_settle_iff (c : spi_config) (oldCFG2 : Nat) :
    ((spi_prepare c oldCFG2).waited = true ↔
      oldCFG2.testBit SPI_CFG2_CPOL_Pos
        ≠ (spiCfg2 c.mode).testBit SPI_CFG2_CPOL_Pos) ∧
    (spi_prepare c ((spi_prepare c oldCFG2).cfg2)).waited = false ∧
    (∀ c2 : spi_config, c.mode < 4 → c2.mode < 4 → c.mode / 2 ≠ c2.mode / 2 →
      (spi_prepare c2 ((spi_prepare c oldCFG2).cfg2)).waited = true) := by
  refine ⟨cpolDiffIff oldCFG2 (spiCfg2 c.mode), ?_, ?_⟩
  · show ((spiCfg2 c.mode ^^^ spiCfg2 c.mode) &&& SPI_CFG2_CPOL_Msk != 0) = false
    rw [Nat.xor_self]
    rfl
  · intro c2 h1 h2 hne
    exact (cpolDiffIff (spiCfg2 c.mode) (spiCfg2 c2.mode)).mpr
      (spiCfg2_cpol_ne c.mode h1 c2.mode h2 hne)

/-- Witness for spi_prepare_settle_iff: after preparing mode 0 (polarity
0), preparing mode 2 (polarity 1) performs the settle wait, and repeating
mode 0 does not. -/
theorem spi_prepare_settle_iff_inst :
    (spi_prepare ⟨.spi2, 6, 0⟩ ((spi_prepare ⟨.spi2, 6, 0⟩ 0).cfg2)).waited
        = false ∧
    (spi_prepare ⟨.spi2, 6, 2⟩ ((spi_prepare ⟨.spi2, 6, 0⟩ 0).cfg2)).waited
        = true :=
  ⟨(spi_prepare_settle_iff ⟨.spi2, 6, 0⟩ 0).2.1,
   (spi_prepare_settle_iff ⟨.spi2, 6, 0⟩ 0).2.2 ⟨.spi2, 6, 2⟩
     (by decide) (by decide) (by decide)⟩

/-- Counterexample to C10 as stated: mode 4 does NOT set any additional
control-register bit above the polarity bit — its shifted bit lands on the
SSM position, which the driver sets anyway, so the computed CFG2 value is
identical to mode 0's value bit for bit. -/
theorem spiCfg2_mode_four_no_extra_bits :
    spiCfg2 4 = spiCfg2 0 ∧
    (∀ k, SPI_CFG2_CPOL_Pos < k →
      (spiCfg2 4).testBit k = (spiCfg2 0).testBit k) := by
  refine ⟨by decide, ?_⟩
  intro k _
  rw [show spiCfg2 4 = spiCfg2 0 by decide]

/-- C10 (amended): spi_prepare shifts the whole unmasked mode into the
clock-phase position, so for mode in {0,1,2,3} the CFG2 value is exactly
the fixed control bits plus phase from the mode's low bit and polarity
from its high bit; for mode at least 4 the shifted term carries bits above
the polarity bit, but those bits may coincide with control bits the driver
always sets — mode 4 lands on the always-set SSM bit and yields the very
value of mode 0, while mode 8 lands on a clear position and does set an
additional register bit (bit 27). -/
theorem spi_prepare_mode_unmasked :
    (∀ mode, mode < 4 →
      spiCfg2 mode =
        (SPI_CFG2_MASTER ||| SPI_CFG2_SSM ||| SPI_CFG2_AFCNTR
            ||| SPI_CFG2_SSOE)
          ||| ((mode % 2) <<< SPI_CFG2_CPHA_Pos)
          ||| ((mode / 2) <<< SPI_CFG2_CPOL_Pos)) ∧
    (∀ mode, 4 ≤ mode →
      (mode <<< SPI_CFG2_CPHA_Pos) >>> (SPI_CFG2_CPOL_Pos + 1) ≠ 0) ∧
    spiCfg2 4 = spiCfg2 0 ∧
    (spiCfg2 8).testBit 27 = true ∧ (spiCfg2 0).testBit 27 = false := by
  refine ⟨by decide, ?_, by decide, by decide, by decide⟩
  intro mode h
  show (mode <<< 24) >>> 26 ≠ 0
  have hshift : (mode <<< 24) >>> 26 = mode / 4 := by
    rw [Nat.shiftLeft_eq, Nat.shiftRight_eq_div_pow]
    have h26 : (2 : Nat) ^ 26 = 2 ^ 24 * 4 := by norm_num
    rw [h26, ← Nat.div_div_eq_div_mul, Nat.mul_div_cancel _ (by positivity)]
  rw [hshift]
  omega

/-- Witness for spi_prepare_mode_unmasked: the layout equation at mode 3
and the high-bit fact at mode 4. -/
theorem spi_prepare_mode_unmasked_inst :
    spiCfg2 3 =
      (SPI_CFG2_MASTER ||| SPI_CFG2_SSM ||| SPI_CFG2_AFCNTR
          ||| SPI_CFG2_SSOE)
        ||| ((3 % 2) <<< SPI_CFG2_CPHA_Pos)
        ||| ((3 / 2) <<< SPI_CFG2_CPOL_Pos) ∧
    (4 <<< SPI_CFG2_CPHA_Pos) >>> (SPI_CFG2_CPOL_Pos + 1) ≠ 0 :=
  ⟨spi_prepare_mode_unmasked.1 3 (by decide),
   spi_prepare_mode_unmasked.2.1 4 (by decide)⟩

/-! Cursor invariants of the transfer loop. -/

theorem spi_transfer_step_wptr_bound (recv : Bool) (len : Nat)
    (s : XferState) (txp rxp : Bool) (r : Nat)
    (h : s.wptr ≤ s.data + MAX_FIFO) :
    (spi_transfer_step recv len s txp rxp r).wptr
      ≤ (spi_transfer_step recv len s txp rxp r).data + MAX_FIFO := by
  unfold spi_transfer_step
  split
  · split
    · next htx =>
      have hf : s.wptr < s.data + MAX_FIFO := htx.2.2.2
      split
      · show s.wptr + 1 ≤ s.data + 1 + MAX_FIFO
        omega
      · show s.wptr + 1 ≤ s.data + MAX_FIFO
        omega
    · split
      · show s.wptr ≤ s.data + 1 + MAX_FIFO
        omega
      · exact h
  · exact h

theorem spi_transfer_run_wptr_bound (recv : Bool) (len : Nat) :
    ∀ (inputs : List (Bool × Bool × Nat)) (s : XferState),
      s.wptr ≤ s.data + MAX_FIFO →
      (spi_transfer_run recv len s inputs).wptr
        ≤ (spi_transfer_run recv len s inputs).data + MAX_FIFO := by
  intro inputs
  induction inputs with
  | nil => intro s h; exact h
  | cons head rest ih =>
    obtain ⟨txp, rxp, r⟩ := head
    intro s h
    exact ih _ (spi_transfer_step_wptr_bound recv len s txp rxp r h)

theorem spi_transfer_step_data_bound (recv : Bool) (len : Nat)
    (s : XferState) (txp rxp : Bool) (r : Nat)
    (h : s.data ≤ s.wptr)
    (hc : rxp = true → s.data < len → s.data < s.wptr) :
    (spi_transfer_step recv len s txp rxp r).data
      ≤ (spi_transfer_step recv len s txp rxp r).wptr := by
  unfold spi_transfer_step
  split
  · next hlen =>
    split
    · next htx =>
      split
      · next hrx => exact absurd htx.2.1 (by simp [hrx])
      · show s.data ≤ s.wptr + 1
        omega
    · split
      · next hrx =>
        show s.data + 1 ≤ s.wptr
        exact hc hrx hlen
      · exact h
  · exact h

theorem spi_transfer_run_data_bound (recv : Bool) (len : Nat) :
    ∀ (inputs : List (Bool × Bool × Nat)) (s : XferState),
      s.data ≤ s.wptr →
      rxFlagsOk recv len s inputs = true →
      (spi_transfer_run recv len s inputs).data
        ≤ (spi_transfer_run recv len s inputs).wptr := by
  intro inputs
  induction inputs with
  | nil => intro s h _; exact h
  | cons head rest ih =>
    obtain ⟨txp, rxp, r⟩ := head
    intro s h hok
    rw [rxFlagsOk, Bool.and_eq_true] at hok
    obtain ⟨hc, hrest⟩ := hok
    refine ih _ (spi_transfer_step_data_bound recv len s txp rxp r h ?_) hrest
    intro hrxp hlen
    rw [hrxp] at hc
    simp only [Bool.not_true, Bool.false_or, Bool.or_eq_true,
      Bool.not_eq_true', decide_eq_true_eq, decide_eq_false_iff_not] at hc
    rcases hc with h1 | h2
    · exact absurd hlen h1
    · exact h2

/-- C2 (amended): starting from both cursors at the buffer origin, the
send cursor never races more than MAX_FIFO (8) positions ahead of the
receive cursor under every sequence of status readings; the receive cursor
never overtakes the send cursor provided the readings are FIFO-consistent
(the receive flag is reported only while a transmitted byte is in flight).
Without that consistency requirement the lower bound fails, see the
counterexample. -/
theorem spi_transfer_cursor_bounds (recv : Bool) (len : Nat)
    (buf : Nat → Nat) (inputs : List (Bool × Bool × Nat)) :
    (spi_transfer_run recv len (xferInit buf) inputs).wptr
      ≤ (spi_transfer_run recv len (xferInit buf) inputs).data + MAX_FIFO ∧
    (rxFlagsOk recv len (xferInit buf) inputs = true →
      (spi_transfer_run recv len (xferInit buf) inputs).data
        ≤ (spi_transfer_run recv len (xferInit buf) inputs).wptr) :=
  ⟨spi_transfer_run_wptr_bound recv len inputs (xferInit buf)
      (Nat.le_add_left 0 MAX_FIFO),
   fun hok => spi_transfer_run_data_bound recv len inputs (xferInit buf)
      (Nat.le_refl 0) hok⟩

/-- Witness for spi_transfer_cursor_bounds: a consistent 4-reading run of
a 2-byte transfer. -/
theorem spi_transfer_cursor_bounds_inst :
    (spi_transfer_run true 2 (xferInit fun k => k + 3)
        [(true, false, 0), (false, true, 3), (true, false, 0), (false, true, 4)]).wptr
      ≤ (spi_transfer_run true 2 (xferInit fun k => k + 3)
        [(true, false, 0), (false, true, 3), (true, false, 0), (false, true, 4)]).data
          + MAX_FIFO ∧
    (rxFlagsOk true 2 (xferInit fun k => k + 3)
        [(true, false, 0), (false, true, 3), (true, false, 0), (false, true, 4)] = true →
      (spi_transfer_run true 2 (xferInit fun k => k + 3)
        [(true, false, 0), (false, true, 3), (true, false, 0), (false, true, 4)]).data
        ≤ (spi_transfer_run true 2 (xferInit fun k => k + 3)
        [(true, false, 0), (false, true, 3), (true, false, 0), (false, true, 4)]).wptr) :=
  spi_transfer_cursor_bounds true 2 (fun k => k + 3)
    [(true, false, 0), (false, true, 3), (true, false, 0), (false, true, 4)]

/-- Counterexample to C2 as stated: under the status reading sequence that
asserts the receive flag on the very first iteration (before anything was
transmitted), the code advances the receive cursor past the send cursor,
so the claimed lower bound fails for that sequence. -/
theorem spi_transfer_cursor_counterexample :
    (spi_transfer_run true 1 (xferInit fun _ => 0) [(false, true, 0)]).wptr = 0 ∧
    (spi_transfer_run true 1 (xferInit fun _ => 0) [(false, true, 0)]).data = 1 ∧
    ¬((spi_transfer_run true 1 (xferInit fun _ => 0) [(false, true, 0)]).data
        ≤ (spi_transfer_run true 1 (xferInit fun _ => 0) [(false, true, 0)]).wptr) :=
  ⟨rfl, rfl, by decide⟩

/-- C3 (amended): on every loop iteration on which the transmit flag is
set AND the receive flag is clear (the source tests `sr == SPI_SR_TXP`,
which excludes readings with both flags set), the send cursor has not
reached the length, and the send cursor is STRICTLY fewer than MAX_FIFO
positions ahead of the receive cursor, the engine writes the byte at the
send cursor to the TXDR register and advances the send cursor in that same
iteration. -/
theorem spi_transfer_tx_fires (recv : Bool) (len : Nat) (s : XferState)
    (txp rxp : Bool) (rxdr : Nat)
    (hlen : s.data < len) (htxp : txp = true) (hrxp : rxp = false)
    (hw : s.wptr < len) (hfifo : s.wptr < s.data + MAX_FIFO) :
    spi_transfer_step recv len s txp rxp rxdr =
      { s with wptr := s.wptr + 1,
               txdrWrites := s.txdrWrites ++ [s.buf s.wptr] } := by
  subst htxp
  subst hrxp
  unfold spi_transfer_step
  rw [if_pos hlen, if_neg Bool.false_ne_true,
    if_pos (show (true = true) ∧ (false = false) ∧ s.wptr < len ∧
      s.wptr < s.data + MAX_FIFO from ⟨rfl, rfl, hw, hfifo⟩)]

/-- Witness for spi_transfer_tx_fires: first iteration of a 2-byte
transfer with only the transmit flag set sends byte 3 and advances. -/
theorem spi_transfer_tx_fires_inst :
    spi_transfer_step true 2 (xferInit fun k => k + 3) true false 0 =
      { xferInit (fun k => k + 3) with
          wptr := (xferInit fun k => k + 3).wptr + 1,
          txdrWrites := (xferInit fun k => k + 3).txdrWrites
            ++ [(xferInit fun k => k + 3).buf (xferInit fun k => k + 3).wptr] } :=
  spi_transfer_tx_fires true 2 (xferInit fun k => k + 3) true false 0
    (by decide) rfl rfl (by decide) (by decide)

/-- Counterexample to C3 as stated: (a) when the transmit flag is set but
the receive flag is set too, the claim's conditions hold (transmit-free
set, send cursor below length, at most 8 ahead) yet no byte is written and
the send cursor does not advance, because the source requires
`sr == SPI_SR_TXP`; (b) after 8 transmit-only iterations the send cursor
is exactly 8 ahead — "not more than 8 ahead" in the claim's words — and a
further transmit-only reading still does not send, because the source
bound `wptr < data + MAX_FIFO` is strict. -/
theorem spi_transfer_tx_counterexample :
    ((xferInit fun _ => 5).data < 1 ∧ (xferInit fun _ => 5).wptr < 1 ∧
      (xferInit fun _ => 5).wptr ≤ (xferInit fun _ => 5).data + MAX_FIFO ∧
      (spi_transfer_step true 1 (xferInit fun _ => 5) true true 0).wptr
        = (xferInit fun _ => 5).wptr ∧
      (spi_transfer_step true 1 (xferInit fun _ => 5) true true 0).txdrWrites
        = []) ∧
    ((spi_transfer_run true 9 (xferInit fun _ => 5)
        (List.replicate 8 (true, false, 0))).wptr = 8 ∧
      (spi_transfer_run true 9 (xferInit fun _ => 5)
        (List.replicate 8 (true, false, 0))).data = 0 ∧
      (spi_transfer_step true 9
        (spi_transfer_run true 9 (xferInit fun _ => 5)
          (List.replicate 8 (true, false, 0))) true false 0).wptr = 8) := by
  exact ⟨⟨by decide, by decide, by decide, rfl, rfl⟩, ⟨rfl, rfl, rfl⟩⟩

/-! Frame condition and echo round trip of the transfer loop. -/

theorem spi_transfer_step_no_receive_buf (len : Nat) (s : XferState)
    (txp rxp : Bool) (r : Nat) :
    (spi_transfer_step false len s txp rxp r).buf = s.buf := by
  unfold spi_transfer_step
  split
  · split
    · split
      · rfl
      · rfl
    · split
      · rfl
      · rfl
  · rfl

/-- C9: with receive_data false, spi_transfer never writes back to the
caller's buffer — after any sequence of status readings and received
bytes, every byte of the buffer is unchanged. -/
theorem spi_transfer_no_receive_frame (len : Nat) (buf : Nat → Nat) :
    ∀ (inputs : List (Bool × Bool × Nat)) (s : XferState), s.buf = buf →
      (spi_transfer_run false len s inputs).buf = buf := by
  intro inputs
  induction inputs with
  | nil => intro s h; exact h
  | cons head rest ih =>
    obtain ⟨txp, rxp, r⟩ := head
    intro s h
    exact ih _ ((spi_transfer_step_no_receive_buf len s txp rxp r).trans h)

/-- Witness for spi_transfer_no_receive_frame at a concrete run. -/
theorem spi_transfer_no_receive_frame_inst :
    (spi_transfer_run false 2 (xferInit fun k => k + 3)
      [(true, false, 0), (false, true, 7), (true, false, 0), (false, true, 9)]).buf
      = (fun k => k + 3) :=
  spi_transfer_no_receive_frame 2 (fun k => k + 3)
    [(true, false, 0), (false, true, 7), (true, false, 0), (false, true, 9)]
    (xferInit fun k => k + 3) rfl

theorem spi_transfer_echo_step_inv (len : Nat) (orig : Nat → Nat)
    (s : XferState) (txp rxp : Bool)
    (h1 : s.buf = orig) (h2 : s.txdrWrites.length = s.wptr)
    (h3 : ∀ k, k < s.wptr → s.txdrWrites.getD k 0 = orig k)
    (h4 : s.data ≤ s.wptr)
    (hc : rxp = true → s.data < len → s.data < s.wptr) :
    (spi_transfer_step true len s txp rxp (s.txdrWrites.getD s.data 0)).buf
        = orig ∧
    (spi_transfer_step true len s txp rxp
        (s.txdrWrites.getD s.data 0)).txdrWrites.length
      = (spi_transfer_step true len s txp rxp (s.txdrWrites.getD s.data 0)).wptr ∧
    (∀ k, k < (spi_transfer_step true len s txp rxp
        (s.txdrWrites.getD s.data 0)).wptr →
      (spi_transfer_step true len s txp rxp
        (s.txdrWrites.getD s.data 0)).txdrWrites.getD k 0 = orig k) ∧
    (spi_transfer_step true len s txp rxp (s.txdrWrites.getD s.data 0)).data
      ≤ (spi_transfer_step true len s txp rxp (s.txdrWrites.getD s.data 0)).wptr := by
  unfold spi_transfer_step
  split
  · next hlen =>
    split
    · next htx =>
      have hrxf : rxp = false := htx.2.1
      rw [hrxf, if_neg Bool.false_ne_true]
      refine ⟨h1, ?_, ?_, ?_⟩
      · show (s.txdrWrites ++ [s.buf s.wptr]).length = s.wptr + 1
        rw [List.length_append, h2]
        rfl
      · intro k hk
        show (s.txdrWrites ++ [s.buf s.wptr]).getD k 0 = orig k
        rcases Nat.lt_or_ge k s.wptr with hlt | hge
        · rw [List.getD_append _ _ _ _ (h2 ▸ hlt)]
          exact h3 k hlt
        · have hkw : k = s.wptr := by
            have : k < s.wptr + 1 := hk
            omega
          subst hkw
          rw [List.getD_append_right _ _ _ _ (Nat.le_of_eq h2), h2,
            Nat.sub_self, h1]
          rfl
      · show s.data ≤ s.wptr + 1
        omega
    · split
      · next hrx =>
        have hdw : s.data < s.wptr := hc hrx hlen
        refine ⟨?_, h2, h3, ?_⟩
        · show (fun k => if k = s.data then s.txdrWrites.getD s.data 0
              else s.buf k) = orig
          funext k
          by_cases hk : k = s.data
          · rw [if_pos hk, h3 s.data hdw, hk]
          · rw [if_neg hk, h1]
        · show s.data + 1 ≤ s.wptr
          omega
      · exact ⟨h1, h2, h3, h4⟩
  · exact ⟨h1, h2, h3, h4⟩

theorem spi_transfer_echo_run_inv (len : Nat) (orig : Nat → Nat) :
    ∀ (inputs : List (Bool × Bool)) (s : XferState),
      s.buf = orig → s.txdrWrites.length = s.wptr →
      (∀ k, k < s.wptr → s.txdrWrites.getD k 0 = orig k) →
      s.data ≤ s.wptr →
      echoFlagsOk len s inputs = true →
      (spi_transfer_echo len s inputs).buf = orig := by
  intro inputs
  induction inputs with
  | nil => intro s h1 _ _ _ _; exact h1
  | cons head rest ih =>
    obtain ⟨txp, rxp⟩ := head
    intro s h1 h2 h3 h4 hok
    rw [echoFlagsOk, Bool.and_eq_true] at hok
    obtain ⟨hcb, hrest⟩ := hok
    have hc : rxp = true → s.data < len → s.data < s.wptr := by
      intro hrxp hlen
      rw [hrxp] at hcb
      simp only [Bool.not_true, Bool.false_or, Bool.or_eq_true,
        Bool.not_eq_true', decide_eq_true_eq, decide_eq_false_iff_not] at hcb
      rcases hcb with hb1 | hb2
      · exact absurd hlen hb1
      · exact hb2
    obtain ⟨k1, k2, k3, k4⟩ :=
      spi_transfer_echo_step_inv len orig s txp rxp h1 h2 h3 h4 hc
    rw [spi_transfer_echo]
    exact ih _ k1 k2 k3 k4 hrest

/-- C8: against a peripheral that echoes every transmitted byte back as
the corresponding received byte (RXDR for receive index i delivers the
i-th byte written to TXDR, and the receive flag is only reported while an
in-flight byte exists), spi_transfer with receive_data true writes each
received byte over the identical byte it was read from, so the buffer is
identical to its initial contents after any run — in particular on
completion. -/
theorem spi_transfer_echo_identity (len : Nat) (orig : Nat → Nat)
    (inputs : List (Bool × Bool))
    (hok : echoFlagsOk len (xferInit orig) inputs = true) :
    (spi_transfer_echo len (xferInit orig) inputs).buf = orig :=
  spi_transfer_echo_run_inv len orig inputs (xferInit orig) rfl rfl
    (fun k hk => absurd hk (Nat.not_lt_zero k)) (Nat.le_refl 0) hok

/-- Witness for spi_transfer_echo_identity: a complete 2-byte echo
transfer (the final receive cursor reaches the length). -/
theorem spi_transfer_echo_identity_inst :
    (spi_transfer_echo 2 (xferInit fun k => k + 3)
        [(true, false), (false, true), (true, false), (false, true)]).buf
      = (fun k => k + 3) ∧
    (spi_transfer_echo 2 (xferInit fun k => k + 3)
        [(true, false), (false, true), (true, false), (false, true)]).data = 2 :=
  ⟨spi_transfer_echo_identity 2 (fun k => k + 3)
      [(true, false), (false, true), (true, false), (false, true)] (by decide),
   rfl⟩

/-! Alignment of the bus-name enumeration with the descriptor table. -/

/-- Actual correspondence realised by the source: the i-th enumeration
entry names the peripheral of the i-th table row and its pin-triplet
string lists the row's pins in miso, mosi, sck order (data-in, data-out,
clock) — the order of DECL_CONSTANT_STR strings such as
"PB14,PB15,PB13" against the row {SPI2, PB14, PB15, PB13}. -/
def enumTableAligned (bc : BuildConfig) : Bool :=
  decide ((spi_bus_enums bc).length ≤ (spi_bus bc).length) &&
    (List.range (spi_bus_enums bc).length).all (fun i =>
      let e := (spi_bus_enums bc).getD i ⟨"", .spi1, []⟩
      let row := (spi_bus bc).getD i noInfo
      decide (e.dev = row.spi) &&
        decide (e.pins = [row.miso_pin, row.mosi_pin, row.sck_pin]))

/-- Correspondence in the order asserted by the claim: pin-triplet strings
in clock, data-out, data-in order (sck, mosi, miso). -/
def enumTableAlignedClaimOrder (bc : BuildConfig) : Bool :=
  decide ((spi_bus_enums bc).length ≤ (spi_bus bc).length) &&
    (List.range (spi_bus_enums bc).length).all (fun i =>
      let e := (spi_bus_enums bc).getD i ⟨"", .spi1, []⟩
      let row := (spi_bus bc).getD i noInfo
      decide (e.dev = row.spi) &&
        decide (e.pins = [row.sck_pin, row.mosi_pin, row.miso_pin]))

/-- Counterexample to C7 as stated: (a) even on the full build the
advertised pin strings are in miso, mosi, sck order, not the claimed
clock, data-out, data-in order (bus 0's string starts with PB14, the miso
pin, not PB13, the clock pin); (b) on a build with GPIOI undefined but
SPI5/SPI6 defined, the enumeration does not correspond to the table at
all: the SPI2/PI2/PI3/PI1 table row lacks the `#ifdef GPIOI` guard its
enumeration has, so entry 6 of the enumeration is spi5 (SPI5, PF pins)
while row 6 of the table is the spi2b row (SPI2, PI pins). -/
theorem enumTable_counterexample :
    enumTableAlignedClaimOrder bcAll = false ∧
    ((spi_bus_enums bcAll).getD 0 ⟨"", .spi1, []⟩).pins
      = [GPIOpin 'B' 14, GPIOpin 'B' 15, GPIOpin 'B' 13] ∧
    ((spi_bus bcAll).getD 0 noInfo).sck_pin = GPIOpin 'B' 13 ∧
    enumTableAligned bcNoGPIOI = false ∧
    ((spi_bus_enums bcNoGPIOI).getD 6 ⟨"", .spi1, []⟩).dev = SPIDev.spi5 ∧
    ((spi_bus bcNoGPIOI).getD 6 noInfo).spi = SPIDev.spi2 := by
  decide

/-- C7 (amended): on every build variant in which GPIOI is defined, or in
which neither SPI5 nor SPI6 is defined, the i-th registered bus-name
enumeration value corresponds to the i-th row of the descriptor table
(same peripheral instance and same pins), with the advertised pin-triplet
string listing the row's pins in data-in, data-out, clock (miso, mosi,
sck) order.  On variants with GPIOI undefined and SPI5 or SPI6 defined
the correspondence fails (see the counterexample) because the spi2b table
row is unconditionally compiled while its enumeration is conditional. -/
theorem enumTable_aligned (bc : BuildConfig)
    (h : (bc.hasGPIOI || (!bc.hasSPI5 && !bc.hasSPI6)) = true) :
    enumTableAligned bc = true := by
  rcases bc with ⟨f1, s3, s4, gi, s5, s6⟩
  revert h
  rcases f1 <;> rcases s3 <;> rcases s4 <;> rcases gi <;> rcases s5 <;>
    rcases s6 <;> decide

/-- Witness for enumTable_aligned at the full build. -/
theorem enumTable_aligned_inst : enumTableAligned bcAll = true :=
  enumTable_aligned bcAll (by decide)

end Stm32h7Spi
